import Mathlib

/-!
Shallow embedding of the calendar-audit core pipeline
(`src/audit/parser.py` and `src/audit/metrics.py`) and proofs about it.

Conventions used throughout:
* Python `None`/`NaN` cells are `Option` values (`none` = missing).
* pandas DataFrames are Lean lists of records; the row order of a list is
  the row order of the frame.
* Python `float` arithmetic on durations is modelled with `ℚ`; every
  concrete value appearing in the claims (30, 45, 75/60, 37.5, ...) is
  exactly representable in binary floating point, so the rational model
  agrees with the float computation at those points.
* Python exceptions escaping a function are modelled with `Except String`.
-/

namespace CalAudit

/-- The ASCII whitespace characters matched by Python `str.strip()` and the
regex class `\s` (space, tab, LF, VT, FF, CR). -/
def isPySpace (c : Char) : Bool :=
  c.toNat = 32 || c.toNat = 9 || c.toNat = 10 || c.toNat = 11 ||
  c.toNat = 12 || c.toNat = 13

/-- Python `str.strip()` on a character list: drop whitespace from both ends. -/
def stripList (l : List Char) : List Char :=
  ((l.dropWhile isPySpace).reverse.dropWhile isPySpace).reverse

/-- Python `str.strip()`. -/
def pyStrip (s : String) : String := ⟨stripList s.data⟩

/-- Python `str.lower()` (ASCII range, which covers every string the
pipeline compares). -/
def pyLower (s : String) : String := ⟨s.data.map Char.toLower⟩

/-- `isPrefixChars p l` decides whether `p` is a prefix of `l`. -/
def isPrefixChars : List Char → List Char → Bool
  | [], _ => true
  | _ :: _, [] => false
  | a :: as, b :: bs => a = b && isPrefixChars as bs

/-- `hasSubstr p l` decides whether `p` occurs contiguously inside `l`:
Python's `p in l` on strings. -/
def hasSubstr (p : List Char) : List Char → Bool
  | [] => p.isEmpty
  | c :: r => isPrefixChars p (c :: r) || hasSubstr p r

/-- Python substring test `pat in s`. -/
def strContains (s pat : String) : Bool := hasSubstr pat.data s.data

/-! ### `datetime.strptime`, for the format strings used by `parse_datetime_str`

CPython's `_strptime` compiles a format string to a regex, takes the first
(backtracking-preference) match of that regex at the start of the input,
raises if the match does not consume the whole string, and then raises if
the matched field values do not form a valid date/time.  The field regexes
(from `_strptime.TimeRE`) are:

* `%m`, `%I` : `1[0-2]|0[1-9]|[1-9]`
* `%d`       : `3[01]|[12]\d|0[1-9]|[1-9]`
* `%Y`       : `\d\d\d\d`
* `%y`       : `\d\d`          (00-68 ↦ 2000+, 69-99 ↦ 1900+)
* `%H`       : `2[0-3]|[0-1]\d|\d`
* `%M`       : `[0-5]\d|\d`
* `%S`       : `6[0-1]|[0-5]\d|\d`
* `%p`       : `am|pm` (case-insensitive)
* a whitespace run in the format : `\s+`
* any other character : itself, literally.

A matcher below returns the list of `(value, rest-of-input)` alternatives in
regex preference order; sequencing with `candBind` reproduces the
backtracking order of the compiled regex, so the head of the final candidate
list is exactly the match `re.match` returns. -/

/-- Candidate parses: value plus unconsumed input, in preference order. -/
abbrev Cand (α : Type) := List (α × List Char)

/-- Sequence candidate parsers, preserving regex backtracking order. -/
def candBind {α β : Type} (xs : Cand α) (f : α → List Char → Cand β) : Cand β :=
  xs.flatMap fun p => f p.1 p.2

def isDigit (c : Char) : Bool := 48 ≤ c.toNat && c.toNat ≤ 57

def digitVal (c : Char) : Nat := c.toNat - 48

def digitChar (n : Nat) : Char := Char.ofNat (48 + n)

/-- Literal character in a format string. -/
def matchLit (c : Char) : List Char → Cand Unit
  | x :: rest => if x = c then [((), rest)] else []
  | [] => []

/-- Rests after consuming one or more whitespace characters, greedy
(longest consumption) first — the behaviour of `\s+`. -/
def wsRests : List Char → List (List Char)
  | c :: rest => if isPySpace c then wsRests rest ++ [rest] else []
  | [] => []

/-- `\s+` in a compiled format. -/
def matchWs : List Char → Cand Unit := fun s => (wsRests s).map fun r => ((), r)

/-- `%m` and `%I` : `1[0-2]|0[1-9]|[1-9]`. -/
def matchM : List Char → Cand Nat
  | c1 :: c2 :: rest =>
    (if c1 = '1' ∧ '0' ≤ c2 ∧ c2 ≤ '2' then [(10 + digitVal c2, rest)] else []) ++
    (if c1 = '0' ∧ '1' ≤ c2 ∧ c2 ≤ '9' then [(digitVal c2, rest)] else []) ++
    (if '1' ≤ c1 ∧ c1 ≤ '9' then [(digitVal c1, c2 :: rest)] else [])
  | [c1] => if '1' ≤ c1 ∧ c1 ≤ '9' then [(digitVal c1, [])] else []
  | [] => []

/-- `%I` compiles to the same regex as `%m`. -/
abbrev matchI := matchM

/-- `%d` : `3[01]|[12]\d|0[1-9]|[1-9]`. -/
def matchD : List Char → Cand Nat
  | c1 :: c2 :: rest =>
    (if c1 = '3' ∧ (c2 = '0' ∨ c2 = '1') then [(30 + digitVal c2, rest)] else []) ++
    (if ('1' ≤ c1 ∧ c1 ≤ '2') ∧ isDigit c2 = true then
      [(10 * digitVal c1 + digitVal c2, rest)] else []) ++
    (if c1 = '0' ∧ '1' ≤ c2 ∧ c2 ≤ '9' then [(digitVal c2, rest)] else []) ++
    (if '1' ≤ c1 ∧ c1 ≤ '9' then [(digitVal c1, c2 :: rest)] else [])
  | [c1] => if '1' ≤ c1 ∧ c1 ≤ '9' then [(digitVal c1, [])] else []
  | [] => []

/-- `%Y` : exactly four digits. -/
def matchY : List Char → Cand Nat
  | c1 :: c2 :: c3 :: c4 :: rest =>
    if isDigit c1 ∧ isDigit c2 ∧ isDigit c3 ∧ isDigit c4 then
      [(((digitVal c1 * 10 + digitVal c2) * 10 + digitVal c3) * 10 + digitVal c4, rest)]
    else []
  | _ => []

/-- `%y` : exactly two digits, with the CPython century rule. -/
def matchy : List Char → Cand Nat
  | c1 :: c2 :: rest =>
    if isDigit c1 ∧ isDigit c2 then
      [(if digitVal c1 * 10 + digitVal c2 ≤ 68 then 2000 + digitVal c1 * 10 + digitVal c2
        else 1900 + digitVal c1 * 10 + digitVal c2, rest)]
    else []
  | _ => []

/-- `%H` : `2[0-3]|[0-1]\d|\d`. -/
def matchH : List Char → Cand Nat
  | c1 :: c2 :: rest =>
    (if c1 = '2' ∧ '0' ≤ c2 ∧ c2 ≤ '3' then [(20 + digitVal c2, rest)] else []) ++
    (if (c1 = '0' ∨ c1 = '1') ∧ isDigit c2 = true then
      [(10 * digitVal c1 + digitVal c2, rest)] else []) ++
    (if isDigit c1 then [(digitVal c1, c2 :: rest)] else [])
  | [c1] => if isDigit c1 then [(digitVal c1, [])] else []
  | [] => []

/-- `%M` : `[0-5]\d|\d`. -/
def matchMin : List Char → Cand Nat
  | c1 :: c2 :: rest =>
    (if ('0' ≤ c1 ∧ c1 ≤ '5') ∧ isDigit c2 = true then
      [(10 * digitVal c1 + digitVal c2, rest)] else []) ++
    (if isDigit c1 then [(digitVal c1, c2 :: rest)] else [])
  | [c1] => if isDigit c1 then [(digitVal c1, [])] else []
  | [] => []

/-- `%S` : `6[0-1]|[0-5]\d|\d`. -/
def matchS : List Char → Cand Nat
  | c1 :: c2 :: rest =>
    (if c1 = '6' ∧ (c2 = '0' ∨ c2 = '1') then [(60 + digitVal c2, rest)] else []) ++
    (if ('0' ≤ c1 ∧ c1 ≤ '5') ∧ isDigit c2 = true then
      [(10 * digitVal c1 + digitVal c2, rest)] else []) ++
    (if isDigit c1 then [(digitVal c1, c2 :: rest)] else [])
  | [c1] => if isDigit c1 then [(digitVal c1, [])] else []
  | [] => []

/-- `%p` : `am|pm`, case-insensitive (`true` means pm). -/
def matchP : List Char → Cand Bool
  | a :: m :: rest =>
    (if (a = 'a' ∨ a = 'A') ∧ (m = 'm' ∨ m = 'M') then [(false, rest)] else []) ++
    (if (a = 'p' ∨ a = 'P') ∧ (m = 'm' ∨ m = 'M') then [(true, rest)] else [])
  | _ => []

/-- A date-format candidate parser, producing `(year, month, day)`. -/
abbrev DP := List Char → Cand (Nat × Nat × Nat)

/-- A time-format candidate parser, producing `(hour, minute, second)`. -/
abbrev TP := List Char → Cand (Nat × Nat × Nat)

/-- `'%m/%d/%Y'`. -/
def fmt_mdY : DP := fun s =>
  candBind (matchM s) fun mo r =>
  candBind (matchLit '/' r) fun _ r =>
  candBind (matchD r) fun d r =>
  candBind (matchLit '/' r) fun _ r =>
  candBind (matchY r) fun y r => [((y, mo, d), r)]

/-- `'%Y-%m-%d'`. -/
def fmt_Ymd : DP := fun s =>
  candBind (matchY s) fun y r =>
  candBind (matchLit '-' r) fun _ r =>
  candBind (matchM r) fun mo r =>
  candBind (matchLit '-' r) fun _ r =>
  candBind (matchD r) fun d r => [((y, mo, d), r)]

/-- `'%d/%m/%Y'`. -/
def fmt_dmY : DP := fun s =>
  candBind (matchD s) fun d r =>
  candBind (matchLit '/' r) fun _ r =>
  candBind (matchM r) fun mo r =>
  candBind (matchLit '/' r) fun _ r =>
  candBind (matchY r) fun y r => [((y, mo, d), r)]

/-- `'%m-%d-%Y'`. -/
def fmt_mdY2 : DP := fun s =>
  candBind (matchM s) fun mo r =>
  candBind (matchLit '-' r) fun _ r =>
  candBind (matchD r) fun d r =>
  candBind (matchLit '-' r) fun _ r =>
  candBind (matchY r) fun y r => [((y, mo, d), r)]

/-- `'%m/%d/%y'`. -/
def fmt_mdy : DP := fun s =>
  candBind (matchM s) fun mo r =>
  candBind (matchLit '/' r) fun _ r =>
  candBind (matchD r) fun d r =>
  candBind (matchLit '/' r) fun _ r =>
  candBind (matchy r) fun y r => [((y, mo, d), r)]

/-- `'%d/%m/%y'`. -/
def fmt_dmy : DP := fun s =>
  candBind (matchD s) fun d r =>
  candBind (matchLit '/' r) fun _ r =>
  candBind (matchM r) fun mo r =>
  candBind (matchLit '/' r) fun _ r =>
  candBind (matchy r) fun y r => [((y, mo, d), r)]

/-- `'%Y/%m/%d'`. -/
def fmt_Ymd2 : DP := fun s =>
  candBind (matchY s) fun y r =>
  candBind (matchLit '/' r) fun _ r =>
  candBind (matchM r) fun mo r =>
  candBind (matchLit '/' r) fun _ r =>
  candBind (matchD r) fun d r => [((y, mo, d), r)]

/-- CPython hour adjustment when `%I` is combined with `%p`. -/
def adjust12 (h : Nat) (pm : Bool) : Nat :=
  if pm then (if h = 12 then 12 else h + 12) else (if h = 12 then 0 else h)

/-- `'%I:%M:%S %p'`. -/
def fmt_IMSp : TP := fun s =>
  candBind (matchI s) fun h r =>
  candBind (matchLit ':' r) fun _ r =>
  candBind (matchMin r) fun mi r =>
  candBind (matchLit ':' r) fun _ r =>
  candBind (matchS r) fun se r =>
  candBind (matchWs r) fun _ r =>
  candBind (matchP r) fun pm r => [((adjust12 h pm, mi, se), r)]

/-- `'%I:%M %p'`. -/
def fmt_IMp : TP := fun s =>
  candBind (matchI s) fun h r =>
  candBind (matchLit ':' r) fun _ r =>
  candBind (matchMin r) fun mi r =>
  candBind (matchWs r) fun _ r =>
  candBind (matchP r) fun pm r => [((adjust12 h pm, mi, 0), r)]

/-- `'%H:%M:%S'`. -/
def fmt_HMS : TP := fun s =>
  candBind (matchH s) fun h r =>
  candBind (matchLit ':' r) fun _ r =>
  candBind (matchMin r) fun mi r =>
  candBind (matchLit ':' r) fun _ r =>
  candBind (matchS r) fun se r => [((h, mi, se), r)]

/-- `'%H:%M'`. -/
def fmt_HM : TP := fun s =>
  candBind (matchH s) fun h r =>
  candBind (matchLit ':' r) fun _ r =>
  candBind (matchMin r) fun mi r => [((h, mi, 0), r)]

/-- One- or two-digit decimal rendering of `n` (two-digit numbers and,
when `pad` is set, zero-padded one-digit numbers). -/
def render2 (n : Nat) (pad : Bool) : List Char :=
  if n < 10 then (if pad then ['0', digitChar n] else [digitChar n])
  else [digitChar (n / 10), digitChar (n % 10)]

/-- Four-digit zero-padded decimal rendering of `n`. -/
def render4 (n : Nat) : List Char :=
  [digitChar (n / 1000), digitChar (n / 100 % 10), digitChar (n / 10 % 10), digitChar (n % 10)]

/-- A date string of the form `A/B/YYYY`, with each of `A` and `B`
rendered with one or two digits and the year rendered with four. -/
def renderMDY (A B Y : Nat) (padA padB : Bool) : String :=
  ⟨render2 A padA ++ '/' :: (render2 B padB ++ '/' :: render4 Y)⟩

/-- A naive `datetime.datetime` value. -/
structure PyDateTime where
  year : Nat
  month : Nat
  day : Nat
  hour : Nat
  minute : Nat
  second : Nat
deriving Repr, DecidableEq

/-- `calendar`-style leap-year test. -/
def isLeap (y : Nat) : Bool := y % 4 = 0 && (y % 100 ≠ 0 || y % 400 = 0)

/-- Length of a month in the proleptic Gregorian calendar. -/
def daysInMonth (y m : Nat) : Nat :=
  if m = 2 then (if isLeap y then 29 else 28)
  else if m = 4 ∨ m = 6 ∨ m = 9 ∨ m = 11 then 30
  else 31

/-- Bounds checks performed by the `datetime` constructor. -/
def validDate (y m d : Nat) : Bool :=
  1 ≤ y && y ≤ 9999 && 1 ≤ m && m ≤ 12 && 1 ≤ d && d ≤ daysInMonth y m

/-- Bounds checks performed by the `datetime` constructor. -/
def validTime (h mi s : Nat) : Bool := h ≤ 23 && mi ≤ 59 && s ≤ 59

/-- The single match `re.match` yields: the head of the preference-ordered
candidate list, which must consume the whole input (`_strptime` raises
`"unconverted data remains"` otherwise). -/
def firstFull {α : Type} (c : Cand α) : Option α :=
  match c.head? with
  | some (v, []) => some v
  | _ => none

/-- `datetime.strptime(s, date_fmt)`: `none` models `ValueError`. -/
def strptimeDate (dp : DP) (s : String) : Option PyDateTime :=
  match firstFull (dp s.data) with
  | some (y, m, d) => if validDate y m d then some ⟨y, m, d, 0, 0, 0⟩ else none
  | none => none

/-- The compiled combination `f"{date_fmt} {time_fmt}"` (the separating
space becomes `\s+`). -/
def comboCand (dp : DP) (tp : TP) : List Char → Cand ((Nat × Nat × Nat) × (Nat × Nat × Nat)) :=
  fun s =>
  candBind (dp s) fun ymd r =>
  candBind (matchWs r) fun _ r =>
  candBind (tp r) fun hms r => [((ymd, hms), r)]

/-- `datetime.strptime(s, f"{date_fmt} {time_fmt}")`. -/
def strptimeDateTime (dp : DP) (tp : TP) (s : String) : Option PyDateTime :=
  match firstFull (comboCand dp tp s.data) with
  | some ((y, m, d), (h, mi, se)) =>
    if validDate y m d ∧ validTime h mi se then some ⟨y, m, d, h, mi, se⟩ else none
  | none => none

/-- The `date_formats` list of `parse_datetime_str`. -/
def dateFormats : List DP := [fmt_mdY, fmt_Ymd, fmt_dmY, fmt_mdY2, fmt_mdy, fmt_dmy, fmt_Ymd2]

/-- The `time_formats` list of `parse_datetime_str`; `none` is the empty
format `''` (date-only). -/
def timeFormats : List (Option TP) := [some fmt_IMSp, some fmt_IMp, some fmt_HMS, some fmt_HM, none]

/-- One iteration of the format loop in `parse_datetime_str`: build the
combined format and string when both a time string and a time format are
present, otherwise parse the date string alone; `full_str` is stripped as in
`datetime.strptime(full_str.strip(), full_fmt)`. -/
def tryFormat (ds ts : String) (dp : DP) (tf : Option TP) : Option PyDateTime :=
  if ts ≠ "" then
    match tf with
    | some tp => strptimeDateTime dp tp (pyStrip (ds ++ " " ++ ts))
    | none => strptimeDate dp (pyStrip ds)
  else strptimeDate dp (pyStrip ds)

/-- The coercion applied to `time_str`: falsy (`None` or `''`) becomes `''`,
anything else is stripped. -/
def normTimeStr (timeStr : Option String) : String :=
  match timeStr with
  | none => ""
  | some t0 => if t0 = "" then "" else pyStrip t0

/-- `parse_datetime_str` (src/audit/parser.py:89).  `none` for either
argument models `NaN`/`None`. -/
def parse_datetime_str (dateStr : Option String) (timeStr : Option String := none) :
    Option PyDateTime :=
  match dateStr with
  | none => none
  | some d0 =>
    let ds := pyStrip d0
    if ds = "" then none
    else
      let ts := normTimeStr timeStr
      dateFormats.findSome? fun dp => timeFormats.findSome? fun tf => tryFormat ds ts dp tf

/-- Exact rational division, written so that it evaluates by kernel
reduction (`Rat.inv` is irreducible, so `a / b` on `ℚ` does not);
`qdiv_eq_div` below proves it is ordinary division. -/
def qdiv (a b : ℚ) : ℚ := Rat.divInt (a.num * b.den) (a.den * b.num)

/-! ### Canonical event schema (spec §3) -/

/-- A row of the normalized table produced by a source normalizer, before
derived fields are added. -/
structure NormRow where
  subject : String
  start_datetime : Option PyDateTime
  end_datetime : Option PyDateTime
  is_all_day : Bool
  organizer : String
  attendees : String
  location : String
deriving Repr, DecidableEq

/-- English weekday names as produced by `strftime('%A')`, Monday first. -/
def WEEKDAY_NAMES : List String :=
  ["Monday", "Tuesday", "Wednesday", "Thursday", "Friday", "Saturday", "Sunday"]

/-- Days in the months strictly before month `m` of year `y`. -/
def daysBeforeMonth (y m : Nat) : Nat :=
  ((List.range (m - 1)).map fun i => daysInMonth y (i + 1)).sum

/-- `datetime.date.toordinal()`: day number in the proleptic Gregorian
calendar, with 0001-01-01 ↦ 1. -/
def toOrdinal (y m d : Nat) : Nat :=
  365 * (y - 1) + (y - 1) / 4 - (y - 1) / 100 + (y - 1) / 400 + daysBeforeMonth y m + d

/-- `datetime.weekday()`: Monday = 0 (ordinal 1 was a Monday). -/
def pyWeekday (t : PyDateTime) : Nat := (toOrdinal t.year t.month t.day + 6) % 7

/-- Seconds since 0001-01-01 00:00:00; `a - b` in seconds is
`(a_datetime - b_datetime).total_seconds()`. -/
def dtSeconds (t : PyDateTime) : ℤ :=
  (toOrdinal t.year t.month t.day : ℤ) * 86400 + t.hour * 3600 + t.minute * 60 + t.second

/-- A row of the canonical table after `calculate_derived_fields`. -/
structure Row extends NormRow where
  duration_minutes : ℚ
  weekday : String
  weekday_num : Nat
  date : Option (Nat × Nat × Nat)
deriving Repr, DecidableEq

/-- The per-row body of `calculate_derived_fields` (src/audit/parser.py:353):
duration from the endpoint difference when both endpoints are present (a
`datetime` is always truthy, `None` is falsy), weekday fields and date from
`start_datetime` with the documented sentinels. -/
def deriveRow (r : NormRow) : Row :=
  { toNormRow := r
    duration_minutes :=
      match r.start_datetime, r.end_datetime with
      | some s, some e => qdiv ((dtSeconds e - dtSeconds s : ℤ) : ℚ) 60
      | _, _ => 0
    weekday :=
      match r.start_datetime with
      | some s => WEEKDAY_NAMES.getD (pyWeekday s) ""
      | none => "Unknown"
    weekday_num :=
      match r.start_datetime with
      | some s => pyWeekday s
      | none => 7
    date := r.start_datetime.map fun s => (s.year, s.month, s.day) }

/-- `calculate_derived_fields` over the whole table. -/
def calculate_derived_fields (l : List NormRow) : List Row := l.map deriveRow

/-- Lines 447-464 of `parse_calendar_file`: drop rows with a missing
endpoint (warning with the count), add derived fields, then drop rows with
negative duration (warning with the count). -/
def postProcess (l : List NormRow) (warnings : List String) : List Row × List String :=
  let kept := l.filter fun r => r.start_datetime.isSome && r.end_datetime.isSome
  let droppedCount := l.length - kept.length
  let w1 :=
    if 0 < droppedCount then warnings ++ [s!"Dropped {droppedCount} rows with invalid dates"]
    else warnings
  let derived := calculate_derived_fields kept
  let negCount := (derived.filter fun r => decide (r.duration_minutes < 0)).length
  let w2 :=
    if 0 < negCount then w1 ++ [s!"Dropped {negCount} rows with invalid duration"]
    else w1
  (derived.filter fun r => !decide (r.duration_minutes < 0), w2)

/-! ### CSV model, source detection, normalizers -/

/-- A CSV successfully read by `pd.read_csv`: a header and data rows.  A
`none` cell is `NaN`; `rows.isEmpty` models `df.empty`. -/
structure Csv where
  header : List String
  rows : List (List (Option String))
deriving Repr, DecidableEq

/-- `df.columns = df.columns.str.strip()` (src/audit/parser.py:430). -/
def trimHeader (t : Csv) : Csv := ⟨t.header.map pyStrip, t.rows⟩

def OUTLOOK_SIGNATURE : List String := ["Organizer", "Required Attendees", "Meeting Organizer"]

def GOOGLE_SIGNATURE : List String := ["Description", "Private"]

/-- `detect_csv_source` (src/audit/parser.py:60): count signature columns
present in the trimmed header, higher count wins, tie falls to `google`
when both `Subject` and `Start Date` are present. -/
def detect_csv_source (t : Csv) : String :=
  let columns := t.header.map pyStrip
  let outlook_matches := (OUTLOOK_SIGNATURE.filter (· ∈ columns)).length
  let google_matches := (GOOGLE_SIGNATURE.filter (· ∈ columns)).length
  if google_matches < outlook_matches then "outlook"
  else if outlook_matches < google_matches then "google"
  else if "Subject" ∈ columns ∧ "Start Date" ∈ columns then "google"
  else "unknown"

/-- `find_column` (src/audit/parser.py:80): first candidate name present in
the trimmed header. -/
def find_column (t : Csv) (possible_names : List String) : Option String :=
  let columns := t.header.map pyStrip
  possible_names.find? (· ∈ columns)

/-- `row.get(col, '')` on a pandas row: the cell under the (trimmed) header
label, `some ""` when the label is absent; a `none` cell is `NaN`. -/
def rowGet (header : List String) (row : List (Option String)) (col : String) : Option String :=
  match (header.map pyStrip).findIdx? (· = col) with
  | some i =>
    match row[i]? with
    | some v => v
    | none => some ""
  | none => some ""

/-- `row.get(col, '') if col else ''` for an optional column. -/
def cellOpt (header : List String) (row : List (Option String)) (col : Option String) :
    Option String :=
  match col with
  | some c => rowGet header row c
  | none => some ""

/-- `parse_bool` (src/audit/parser.py:118). -/
def parse_bool (v : Option String) : Bool :=
  match v with
  | none => false
  | some s =>
    let x := pyStrip (pyLower s)
    x = "true" || x = "yes" || x = "1" || x = "on"

def OUTLOOK_COLUMNS_subject : List String := ["Subject"]
def OUTLOOK_COLUMNS_start_date : List String := ["Start Date"]
def OUTLOOK_COLUMNS_start_time : List String := ["Start Time"]
def OUTLOOK_COLUMNS_end_date : List String := ["End Date"]
def OUTLOOK_COLUMNS_end_time : List String := ["End Time"]
def OUTLOOK_COLUMNS_all_day : List String := ["All day event", "All Day Event"]
def OUTLOOK_COLUMNS_organizer : List String := ["Organizer", "Meeting Organizer"]
def OUTLOOK_COLUMNS_attendees : List String := ["Required Attendees", "Attendees"]
def OUTLOOK_COLUMNS_optional : List String := ["Optional Attendees"]
def OUTLOOK_COLUMNS_location : List String := ["Location"]

def GOOGLE_COLUMNS_subject : List String := ["Subject", "Title"]
def GOOGLE_COLUMNS_start_date : List String := ["Start Date"]
def GOOGLE_COLUMNS_start_time : List String := ["Start Time"]
def GOOGLE_COLUMNS_end_date : List String := ["End Date"]
def GOOGLE_COLUMNS_end_time : List String := ["End Time"]
def GOOGLE_COLUMNS_all_day : List String := ["All Day Event", "All day event"]
def GOOGLE_COLUMNS_location : List String := ["Location"]

/-- `.str.strip('; ')`: drop any of the given characters from both ends. -/
def stripCharsBoth (cs : List Char) (l : List Char) : List Char :=
  ((l.dropWhile (· ∈ cs)).reverse.dropWhile (· ∈ cs)).reverse

/-- `normalize_outlook` (src/audit/parser.py:126).  When the subject column
is missing and the table has data rows, the scalar assignment
`normalized['subject'] = '(No Subject)'` leaves `normalized` with zero rows
and the following list assignment of `start_times` raises a pandas
`ValueError` (length of values does not match length of index); the
`.error` branch models that exception. -/
def normalize_outlook (t : Csv) : Except String (List NormRow) :=
  let subject_col := find_column t OUTLOOK_COLUMNS_subject
  let start_date_col := find_column t OUTLOOK_COLUMNS_start_date
  let start_time_col := find_column t OUTLOOK_COLUMNS_start_time
  let end_date_col := find_column t OUTLOOK_COLUMNS_end_date
  let end_time_col := find_column t OUTLOOK_COLUMNS_end_time
  let all_day_col := find_column t OUTLOOK_COLUMNS_all_day
  let organizer_col := find_column t OUTLOOK_COLUMNS_organizer
  let attendees_col := find_column t OUTLOOK_COLUMNS_attendees
  let optional_col := find_column t OUTLOOK_COLUMNS_optional
  let location_col := find_column t OUTLOOK_COLUMNS_location
  match subject_col with
  | none =>
    if t.rows.isEmpty then .ok []
    else .error "Length of values does not match length of index"
  | some sc =>
    .ok (t.rows.map fun row =>
      { subject := (rowGet t.header row sc).getD "(No Subject)"
        start_datetime :=
          parse_datetime_str (cellOpt t.header row start_date_col)
            (cellOpt t.header row start_time_col)
        end_datetime :=
          parse_datetime_str (cellOpt t.header row end_date_col)
            (cellOpt t.header row end_time_col)
        is_all_day :=
          match all_day_col with
          | some c => parse_bool (rowGet t.header row c)
          | none => false
        organizer :=
          match organizer_col with
          | some c => (rowGet t.header row c).getD ""
          | none => ""
        attendees :=
          match attendees_col, optional_col with
          | some a, some o =>
            ⟨stripCharsBoth [';', ' ']
              (((rowGet t.header row a).getD "" ++ "; " ++ (rowGet t.header row o).getD "").data)⟩
          | some a, none => (rowGet t.header row a).getD ""
          | none, _ => ""
        location :=
          match location_col with
          | some c => (rowGet t.header row c).getD ""
          | none => "" })

/-- `normalize_google_csv` (src/audit/parser.py:181); the `.error` branch
models the same pandas length-mismatch `ValueError` as in
`normalize_outlook` when the subject column is missing and data rows
exist. -/
def normalize_google_csv (t : Csv) : Except String (List NormRow) :=
  let subject_col := find_column t GOOGLE_COLUMNS_subject
  let start_date_col := find_column t GOOGLE_COLUMNS_start_date
  let start_time_col := find_column t GOOGLE_COLUMNS_start_time
  let end_date_col := find_column t GOOGLE_COLUMNS_end_date
  let end_time_col := find_column t GOOGLE_COLUMNS_end_time
  let all_day_col := find_column t GOOGLE_COLUMNS_all_day
  let location_col := find_column t GOOGLE_COLUMNS_location
  match subject_col with
  | none =>
    if t.rows.isEmpty then .ok []
    else .error "Length of values does not match length of index"
  | some sc =>
    .ok (t.rows.map fun row =>
      { subject := (rowGet t.header row sc).getD "(No Subject)"
        start_datetime :=
          parse_datetime_str (cellOpt t.header row start_date_col)
            (cellOpt t.header row start_time_col)
        end_datetime :=
          parse_datetime_str (cellOpt t.header row end_date_col)
            (cellOpt t.header row end_time_col)
        is_all_day :=
          match all_day_col with
          | some c => parse_bool (rowGet t.header row c)
          | none => false
        organizer := ""
        attendees := ""
        location :=
          match location_col with
          | some c => (rowGet t.header row c).getD ""
          | none => "" })

/-! ### ICS model and top-level entry point -/

/-- The result of `extract_ics_event` on a `VEVENT` that did not raise:
`DTSTART` is required, so both endpoints are concrete datetimes. -/
structure IcsEvent where
  subject : String
  start_datetime : PyDateTime
  end_datetime : PyDateTime
  is_all_day : Bool
  organizer : String
  attendees : String
  location : String
deriving Repr, DecidableEq

def icsToNormRow (e : IcsEvent) : NormRow :=
  { subject := e.subject
    start_datetime := some e.start_datetime
    end_datetime := some e.end_datetime
    is_all_day := e.is_all_day
    organizer := e.organizer
    attendees := e.attendees
    location := e.location }

/-- A component visited by `cal.walk()`: a `VEVENT` carrying the result of
`extract_ics_event` (`none` when extraction returned `None`), or any other
component kind. -/
inductive IcsComponent where
  | vevent (e : Option IcsEvent)
  | other
deriving Repr, DecidableEq

/-- The outcome of the I/O front end of `parse_calendar_file`
(`detect_file_type`, byte decoding, `pd.read_csv` / `Calendar.from_ical`),
which lives outside the pure core being verified.  Every raw byte buffer
and filename maps to exactly one constructor:

* `icsNoLib` — ICS file but the `icalendar` import failed;
* `icsUndecodable` / `icsParseError` — ICS decode or parse failure;
* `icsCal comps` — ICS parsed, with its walked component list;
* `csvUndecodable` — no supported encoding decodes the buffer;
* `csvReadError msg` — `pd.read_csv` raised a non-decode exception with
  message `msg`.  A fully empty buffer decodes to the empty string and
  `pd.read_csv` then raises `EmptyDataError` with message
  `"No columns to parse from file"`, so an empty `.csv` buffer maps here;
* `csvTable t` — CSV read into a table.  A header-only CSV reads as a
  table with no data rows (the `df.empty` branch of the source). -/
inductive FileInput where
  | icsNoLib
  | icsUndecodable
  | icsParseError (msg : String)
  | icsCal (comps : List IcsComponent)
  | csvUndecodable
  | csvReadError (msg : String)
  | csvTable (t : Csv)
deriving Repr, DecidableEq

/-- `source = source_override if source_override else detected_source`
(an empty override string is falsy in Python). -/
def sourceFromOverride (ov : Option String) (detected : String) : String :=
  match ov with
  | none => detected
  | some s => if s = "" then detected else s

/-- Truthiness of the override in `if source != detected_source and source_override`. -/
def ovTruthy (ov : Option String) : Bool :=
  match ov with
  | none => false
  | some s => s ≠ ""

/-- `parse_calendar_file` (src/audit/parser.py:376) over the front-end
outcome.  An uncaught Python exception (from the normalizers) is `.error`. -/
def parse_calendar_file (input : FileInput) (source_override : Option String := none) :
    Except String (List Row × String × List String) :=
  match input with
  | .icsNoLib => .ok ([], "ics", ["icalendar library not installed. Run: pip install icalendar"])
  | .icsUndecodable => .ok ([], "ics", ["Could not decode ICS file"])
  | .icsParseError msg => .ok ([], "ics", ["Error parsing ICS file: " ++ msg])
  | .icsCal comps =>
    let events := comps.filterMap fun c =>
      match c with
      | .vevent e => e
      | .other => none
    if events.isEmpty then .ok ([], "ics", ["No events found in ICS file"])
    else
      .ok ((postProcess (events.map icsToNormRow) []).1, "ics",
        (postProcess (events.map icsToNormRow) []).2)
  | .csvUndecodable => .ok ([], "unknown", ["Could not decode CSV file with any supported encoding"])
  | .csvReadError msg => .ok ([], "unknown", ["Error reading CSV: " ++ msg])
  | .csvTable t0 =>
    if t0.rows.isEmpty then .ok ([], "unknown", ["CSV file is empty"])
    else
      let t := trimHeader t0
      let detected := detect_csv_source t
      let source := sourceFromOverride source_override detected
      let w0 : List String :=
        if source ≠ detected ∧ ovTruthy source_override then
          [s!"Using manual override: {source} (auto-detected: {detected})"]
        else []
      if source = "outlook" then
        (normalize_outlook t).map fun evs =>
          ((postProcess evs w0).1, source, (postProcess evs w0).2)
      else if source = "google" then
        (normalize_google_csv t).map fun evs =>
          ((postProcess evs w0).1, source, (postProcess evs w0).2)
      else
        (normalize_google_csv t).map fun evs =>
          ((postProcess evs
              (w0 ++ ["Could not detect calendar source. Attempting Google format."])).1,
            "google",
            (postProcess evs
              (w0 ++ ["Could not detect calendar source. Attempting Google format."])).2)

/-! ### Filter engine -/

/-- Regex metacharacters of Python `re` (by code point:
`\ . ^ $ * + ? ( ) [ ] ` and the two braces). -/
def reMetaChars : List Nat := [92, 46, 94, 36, 42, 43, 63, 40, 41, 91, 93, 123, 125]

/-- Underapproximation of `re.compile(pattern)` succeeding, used only to
instantiate concrete runs (`pyRe` below): a pattern all of whose
characters are literals or `|` always compiles in CPython, so this is
faithful where it answers `true`; it conservatively answers `false` on
any pattern containing a metacharacter, which is faithful at the one such
pattern any theorem evaluates, the lone `(`. -/
def reOk (pattern : String) : Bool :=
  pattern.data.all fun c => !(reMetaChars.contains c.toNat)

/-- `re.search` of an alternation of literal branches: some `|`-branch
occurs as a substring (faithful to CPython for exactly the patterns on
which `reOk` answers `true`). -/
def patternSearch (pattern subject : String) : Bool :=
  (pattern.splitOn "|").any fun k => strContains subject k

/-- The canonical table consumed by the filter and metrics engines. -/
abbrev Table := List Row

/-- The observable behavior of the CPython `re` module as used by
`apply_filters`: whether `re.compile(pattern)` succeeds, and whether
`re.search(pattern, s)` finds a match.  `apply_filters` is parametric in
this record, and the universally quantified filter-engine theorems hold
for every `ReModule` — in particular for the true behavior of `re`,
whatever it is, since compilation success and searching are deterministic
functions of the pattern and subject strings. -/
structure ReModule where
  compileOk : String → Bool
  search : String → String → Bool

/-- The fragment of `re`'s behavior exercised by the concrete theorems
below: metacharacter-free alternations compile and match by substring,
and the pattern `"("` fails to compile with
`re.error: missing ), unterminated subpattern` — both faithful to
CPython.  No theorem evaluates `pyRe` at any other kind of pattern. -/
def pyRe : ReModule :=
  { compileOk := reOk, search := patternSearch }

/-- `apply_filters` (src/audit/parser.py:476), parametric in the behavior
`re` of the regex module it calls.  `.error` models the uncaught
`re.error` raised inside `str.contains` when the keyword pattern does not
compile; `reset_index(drop=True)` is the identity on the list model. -/
def apply_filters (re : ReModule) (df : Table) (exclude_all_day : Bool := true)
    (min_duration : ℤ := 0) (exclude_keywords : List String := []) : Except String Table :=
  let f1 := if exclude_all_day then df.filter (fun r => !r.is_all_day) else df
  let f2 :=
    if 0 < min_duration then
      f1.filter fun r => decide ((min_duration : ℚ) ≤ r.duration_minutes)
    else f1
  if exclude_keywords.isEmpty then .ok f2
  else
    let keywords := exclude_keywords.filterMap fun k =>
      if pyStrip k = "" then none else some (pyLower (pyStrip k))
    if keywords.isEmpty then .ok f2
    else
      let pattern := String.intercalate "|" keywords
      if re.compileOk pattern then
        .ok (f2.filter fun r => !re.search pattern (pyLower r.subject))
      else .error "re.error: missing ), unterminated subpattern"

/-! ### Metrics engine -/

/-- numpy `rint`: round half to even (the fractional part is compared with
1/2 through doubling, to keep the definition kernel-reducible). -/
def rintQ (q : ℚ) : ℤ :=
  let f : ℤ := q.floor
  if 2 * (q - f) < 1 then f
  else if 1 < 2 * (q - f) then f + 1
  else if f % 2 = 0 then f else f + 1

/-- `Series.round(1)` (numpy: scale by 10, `rint`, scale back). -/
def round1 (q : ℚ) : ℚ := qdiv (rintQ (q * 10) : ℚ) 10

/-- The `recurring_keywords` list of `estimate_recurring_time`
(src/audit/metrics.py:67). -/
def recurring_keywords : List String :=
  ["weekly", "daily", "standup", "stand-up", "stand up",
   "sync", "1:1", "1-1", "one on one", "recurring",
   "monday", "tuesday", "wednesday", "thursday", "friday",
   "team meeting", "staff meeting", "check-in", "check in",
   "retro", "sprint", "scrum", "planning", "review"]

/-- `df['subject'].str.lower().str.strip()` for one row. -/
def normSubject (r : Row) : String := pyStrip (pyLower r.subject)

/-- Occurrences of the normalized subject `s` in the table (the
`value_counts` entry consulted by `subjects.isin(recurring_subjects)`). -/
def subjectCount (df : Table) (s : String) : Nat :=
  (df.filter fun r => decide (normSubject r = s)).length

/-- The row mask built by `estimate_recurring_time`: normalized subject
repeated at least twice, or some recurring keyword occurs in the
normalized subject (each keyword is a literal regex, so `str.contains` is
a substring test). -/
def isRecurringRow (df : Table) (r : Row) : Bool :=
  decide (2 ≤ subjectCount df (normSubject r)) ||
    recurring_keywords.any fun k => strContains (normSubject r) k

/-- `estimate_recurring_time` (src/audit/metrics.py:46). -/
def estimate_recurring_time (df : Table) : ℚ :=
  if df.isEmpty then 0
  else ((df.filter (isRecurringRow df)).map (·.duration_minutes)).sum

/-- One output row of `get_top_meetings_by_time`. -/
structure TopRow where
  subject : String
  occurrences : Nat
  total_hours : ℚ
  avg_duration : ℤ
deriving Repr, DecidableEq

/-- Code-point comparison of strings, as Python `str` ordering. -/
def charListLe : List Char → List Char → Bool
  | [], _ => true
  | _ :: _, [] => false
  | a :: as, b :: bs =>
    if a.toNat < b.toNat then true
    else if b.toNat < a.toNat then false
    else charListLe as bs

def insertStrAsc (s : String) : List String → List String
  | [] => [s]
  | t :: ts => if charListLe s.data t.data then s :: t :: ts else t :: insertStrAsc s ts

/-- Ascending sort of group keys, as pandas `groupby(sort=True)`. -/
def sortStrAsc : List String → List String
  | [] => []
  | s :: ss => insertStrAsc s (sortStrAsc ss)

def insertDescByHours (x : TopRow) : List TopRow → List TopRow
  | [] => [x]
  | y :: ys => if y.total_hours < x.total_hours then x :: y :: ys else y :: insertDescByHours x ys

/-- `sort_values('total_hours', ascending=False)`.  pandas' default sort is
not stable on ties; ties are resolved here by keeping the group-key order,
which matches pandas on every table considered by the theorems below
(single group). -/
def sortDescByHours : List TopRow → List TopRow
  | [] => []
  | x :: xs => insertDescByHours x (sortDescByHours xs)

/-- `get_top_meetings_by_time` (src/audit/metrics.py:88): group by exact
subject (keys ascending), aggregate count / summed minutes / mean
duration, `total_hours` = minutes/60 rounded to 1 decimal, `avg_duration`
rounded to the nearest integer (numpy half-to-even) and cast to int, sort
descending by total hours, take `top_n`. -/
def get_top_meetings_by_time (df : Table) (top_n : Nat := 10) : List TopRow :=
  if df.isEmpty then []
  else
    let subjects := sortStrAsc (df.map (·.subject)).dedup
    let grouped := subjects.map fun s =>
      let grp := df.filter fun r => decide (r.subject = s)
      let total_minutes := (grp.map (·.duration_minutes)).sum
      let avg := qdiv total_minutes (grp.length : ℚ)
      { subject := s
        occurrences := grp.length
        total_hours := round1 (qdiv total_minutes 60)
        avg_duration := rintQ avg : TopRow }
    (sortDescByHours grouped).take top_n

/-! ### Helper rows for concrete instances -/

/-- A canonical row with the given subject and duration and neutral
remaining fields, used to build concrete tables. -/
def plainRow (subj : String) (dur : ℚ) : Row :=
  { subject := subj, start_datetime := none, end_datetime := none, is_all_day := false
    organizer := "", attendees := "", location := ""
    duration_minutes := dur, weekday := "Monday", weekday_num := 0, date := none }

/-- The two-row table of the C2 scenario: both rows subject
"Status Update", durations 30 and 45 minutes. -/
def c2Table : Table := [plainRow "Status Update" 30, plainRow "Status Update" 45]

/-- The keyword list as claim C3 describes it: the code's fixed list
together with the two missing weekday names, so that it contains every
English weekday name. -/
def c3ClaimKeywords : List String := recurring_keywords ++ ["saturday", "sunday"]

/-- The recurring-row rule exactly as claim C3 words it: the lower-cased
trimmed subject occurs at least twice in the table, or the lower-cased
subject contains some keyword of the claimed list. -/
def c3ClaimIsRecurring (df : Table) (r : Row) : Bool :=
  decide (2 ≤ (df.map fun x => pyStrip (pyLower x.subject)).count (pyStrip (pyLower r.subject))) ||
    c3ClaimKeywords.any fun k => strContains (pyLower r.subject) k

/-- The recurring-minutes total claim C3 asserts `estimate_recurring_time`
returns. -/
def c3ClaimMinutes (df : Table) : ℚ :=
  ((df.filter (c3ClaimIsRecurring df)).map (·.duration_minutes)).sum

/-- The recurring-row rule of the amended claim C3: as the claim words it,
but with the keyword list the code actually uses (weekday names Monday
through Friday only). -/
def specIsRecurring (df : Table) (r : Row) : Bool :=
  decide (2 ≤ (df.map fun x => pyStrip (pyLower x.subject)).count (pyStrip (pyLower r.subject))) ||
    recurring_keywords.any fun k => strContains (pyLower r.subject) k

/-- Sum of `duration_minutes` over the rows the amended claim C3 counts as
recurring. -/
def specRecurringMinutes (df : Table) : ℚ :=
  ((df.filter (specIsRecurring df)).map (·.duration_minutes)).sum

/-- One-row table whose subject is a weekend weekday name and is otherwise
not recurring. -/
def c3Table : Table := [plainRow "saturday" 10]

/-- A decodable, non-empty CSV whose detected source is `unknown` and whose
header has no subject column. -/
def c10Csv : Csv := ⟨["Foo"], [[some "x"]]⟩

/-- A concrete extracted ICS event used to instantiate C1. -/
def evC1 : IcsEvent :=
  { subject := "Weekly Sync", start_datetime := ⟨2024, 1, 15, 9, 0, 0⟩
    end_datetime := ⟨2024, 1, 15, 10, 0, 0⟩, is_all_day := false
    organizer := "", attendees := "", location := "" }

/-- The table `parse_calendar_file` produces from `evC1`. -/
def rowsC1 : List Row :=
  [{ subject := "Weekly Sync", start_datetime := some ⟨2024, 1, 15, 9, 0, 0⟩
     end_datetime := some ⟨2024, 1, 15, 10, 0, 0⟩, is_all_day := false
     organizer := "", attendees := "", location := ""
     duration_minutes := 60, weekday := "Monday", weekday_num := 0
     date := some (2024, 1, 15) }]

/-- Decidable equality for `Except`, so concrete runs of the pipeline can
be checked by `decide`. -/
instance {ε α : Type} [DecidableEq ε] [DecidableEq α] : DecidableEq (Except ε α) :=
  fun a b =>
    match a, b with
    | .error x, .error y =>
      if h : x = y then .isTrue (by rw [h]) else .isFalse fun hc => h (Except.error.inj hc)
    | .ok x, .ok y =>
      if h : x = y then .isTrue (by rw [h]) else .isFalse fun hc => h (Except.ok.inj hc)
    | .error _, .ok _ => .isFalse fun hc => Except.noConfusion hc
    | .ok _, .error _ => .isFalse fun hc => Except.noConfusion hc

/-! ### General lemmas -/

theorem qdiv_eq_div (a b : ℚ) : qdiv a b = a / b := by
  rcases eq_or_ne b 0 with hb | hb
  · subst hb
    simp [qdiv]
  · have hbn : (b.num : ℚ) ≠ 0 := by
      exact_mod_cast Rat.num_ne_zero.mpr hb
    have had : ((a.den : ℚ)) ≠ 0 := by
      have h1 : (0 : ℚ) < (a.den : ℚ) := by exact_mod_cast a.pos
      exact ne_of_gt h1
    have hbd : ((b.den : ℚ)) ≠ 0 := by
      have h1 : (0 : ℚ) < (b.den : ℚ) := by exact_mod_cast b.pos
      exact ne_of_gt h1
    have hadbn : ((a.den : ℚ) * (b.num : ℚ)) ≠ 0 := mul_ne_zero had hbn
    have ha' : a * (a.den : ℚ) = (a.num : ℚ) := by
      have h2 := Rat.num_div_den a
      rw [div_eq_iff had] at h2
      exact h2.symm
    have hb' : b * (b.den : ℚ) = (b.num : ℚ) := by
      have h2 := Rat.num_div_den b
      rw [div_eq_iff hbd] at h2
      exact h2.symm
    rw [qdiv, Rat.divInt_eq_div]
    push_cast
    rw [div_eq_div_iff hadbn hb]
    calc (a.num : ℚ) * (b.den : ℚ) * b = (a.num : ℚ) * (b * (b.den : ℚ)) := by ring
    _ = (a.num : ℚ) * (b.num : ℚ) := by rw [hb']
    _ = (a * (a.den : ℚ)) * (b.num : ℚ) := by rw [ha']
    _ = a * ((a.den : ℚ) * (b.num : ℚ)) := by ring

theorem filter_eq_self_of_all {α : Type} (p : α → Bool) (l : List α)
    (h : ∀ x ∈ l, p x = true) : l.filter p = l := by
  induction l with
  | nil => rfl
  | cons a as ih =>
    rw [List.filter_cons, if_pos (h a (List.mem_cons_self a as))]
    rw [ih fun x hx => h x (List.mem_cons_of_mem a hx)]

theorem ok_rows_eq {a : List Row × String × List String} {rows : List Row} {src : String}
    {ws : List String}
    (h : (Except.ok a : Except String (List Row × String × List String)) = .ok (rows, src, ws)) :
    rows = a.1 := by
  injection h with h2
  exact congrArg Prod.fst h2.symm

theorem postProcess_mem (l : List NormRow) (ws0 : List String) (r : Row)
    (hr : r ∈ (postProcess l ws0).1) :
    (∃ s, r.start_datetime = some s) ∧ (∃ e, r.end_datetime = some e) ∧
      (∀ s e, r.start_datetime = some s → r.end_datetime = some e →
        r.duration_minutes = ((dtSeconds e - dtSeconds s : ℤ) : ℚ) / 60 ∧
          dtSeconds s ≤ dtSeconds e) ∧
      0 ≤ r.duration_minutes := by
  unfold postProcess at hr
  simp only at hr
  obtain ⟨hr1, hneg⟩ := List.mem_filter.mp hr
  have hdur : 0 ≤ r.duration_minutes := by
    have h' : ¬ r.duration_minutes < 0 := by simpa using hneg
    exact le_of_not_lt h'
  simp only [calculate_derived_fields] at hr1
  obtain ⟨r0, hr0mem, hr0eq⟩ := List.mem_map.mp hr1
  obtain ⟨-, hsome⟩ := List.mem_filter.mp hr0mem
  rw [Bool.and_eq_true] at hsome
  obtain ⟨hs0, he0⟩ := hsome
  have hstart : r.start_datetime = r0.start_datetime := by rw [← hr0eq]; rfl
  have hend : r.end_datetime = r0.end_datetime := by rw [← hr0eq]; rfl
  refine ⟨?_, ?_, ?_, hdur⟩
  · rw [hstart]; exact Option.isSome_iff_exists.mp hs0
  · rw [hend]; exact Option.isSome_iff_exists.mp he0
  intro s e hs he
  have hs' : r0.start_datetime = some s := by rw [← hstart]; exact hs
  have he' : r0.end_datetime = some e := by rw [← hend]; exact he
  have hdval : r.duration_minutes = ((dtSeconds e - dtSeconds s : ℤ) : ℚ) / 60 := by
    rw [← hr0eq]
    show (deriveRow r0).duration_minutes = _
    simp only [deriveRow]
    rw [hs', he']
    exact qdiv_eq_div _ _
  refine ⟨hdval, ?_⟩
  rw [hdval] at hdur
  have h60 : (0 : ℚ) ≤ ((dtSeconds e - dtSeconds s : ℤ) : ℚ) := by
    by_contra hcon
    push_neg at hcon
    have hneg' : ((dtSeconds e - dtSeconds s : ℤ) : ℚ) / 60 < 0 :=
      div_neg_of_neg_of_pos hcon (by norm_num)
    linarith
  have h61 : (0 : ℤ) ≤ dtSeconds e - dtSeconds s := by exact_mod_cast h60
  omega

/-- C1: for every front-end outcome and source override, every row of the
table returned by `parse_calendar_file` has non-null `start_datetime` and
`end_datetime`, its `duration_minutes` equals exactly the endpoint
difference in minutes, the end is not before the start, and the duration is
nonnegative. -/
theorem parse_calendar_file_row_invariants (input : FileInput) (ov : Option String)
    (rows : List Row) (src : String) (ws : List String)
    (h : parse_calendar_file input ov = .ok (rows, src, ws)) :
    ∀ r ∈ rows, (∃ s, r.start_datetime = some s) ∧ (∃ e, r.end_datetime = some e) ∧
      (∀ s e, r.start_datetime = some s → r.end_datetime = some e →
        r.duration_minutes = ((dtSeconds e - dtSeconds s : ℤ) : ℚ) / 60 ∧
          dtSeconds s ≤ dtSeconds e) ∧
      0 ≤ r.duration_minutes := by
  intro r hr
  cases input with
  | icsNoLib =>
    have h1 := ok_rows_eq h
    rw [h1] at hr
    simp at hr
  | icsUndecodable =>
    have h1 := ok_rows_eq h
    rw [h1] at hr
    simp at hr
  | icsParseError msg =>
    have h1 := ok_rows_eq h
    rw [h1] at hr
    simp at hr
  | csvUndecodable =>
    have h1 := ok_rows_eq h
    rw [h1] at hr
    simp at hr
  | csvReadError msg =>
    have h1 := ok_rows_eq h
    rw [h1] at hr
    simp at hr
  | icsCal comps =>
    simp only [parse_calendar_file] at h
    by_cases hev : (comps.filterMap fun c =>
        match c with
        | .vevent e => e
        | .other => none).isEmpty = true
    · rw [if_pos hev] at h
      have h1 := ok_rows_eq h
      rw [h1] at hr
      simp at hr
    · rw [if_neg hev] at h
      have h1 := ok_rows_eq h
      simp only at h1
      exact postProcess_mem _ _ r (h1 ▸ hr)
  | csvTable t0 =>
    simp only [parse_calendar_file] at h
    by_cases hemp : t0.rows.isEmpty = true
    · rw [if_pos hemp] at h
      have h1 := ok_rows_eq h
      rw [h1] at hr
      simp at hr
    · rw [if_neg hemp] at h
      by_cases hso : sourceFromOverride ov (detect_csv_source (trimHeader t0)) = "outlook"
      · rw [if_pos hso] at h
        cases hn : normalize_outlook (trimHeader t0) with
        | error e => rw [hn] at h; simp [Except.map] at h
        | ok evs =>
          rw [hn] at h
          simp only [Except.map] at h
          have h1 := ok_rows_eq h
          simp only at h1
          exact postProcess_mem _ _ r (h1 ▸ hr)
      · rw [if_neg hso] at h
        by_cases hsg : sourceFromOverride ov (detect_csv_source (trimHeader t0)) = "google"
        · rw [if_pos hsg] at h
          cases hn : normalize_google_csv (trimHeader t0) with
          | error e => rw [hn] at h; simp [Except.map] at h
          | ok evs =>
            rw [hn] at h
            simp only [Except.map] at h
            have h1 := ok_rows_eq h
            simp only at h1
            exact postProcess_mem _ _ r (h1 ▸ hr)
        · rw [if_neg hsg] at h
          cases hn : normalize_google_csv (trimHeader t0) with
          | error e => rw [hn] at h; simp [Except.map] at h
          | ok evs =>
            rw [hn] at h
            simp only [Except.map] at h
            have h1 := ok_rows_eq h
            simp only at h1
            exact postProcess_mem _ _ r (h1 ▸ hr)

theorem parse_calendar_file_row_invariants_witness :
    parse_calendar_file (.icsCal [.vevent (some evC1)]) none = .ok (rowsC1, "ics", []) ∧
      ∀ r ∈ rowsC1, (∃ s, r.start_datetime = some s) ∧ (∃ e, r.end_datetime = some e) ∧
        (∀ s e, r.start_datetime = some s → r.end_datetime = some e →
          r.duration_minutes = ((dtSeconds e - dtSeconds s : ℤ) : ℚ) / 60 ∧
            dtSeconds s ≤ dtSeconds e) ∧
        0 ≤ r.duration_minutes := by
  have hrun : parse_calendar_file (.icsCal [.vevent (some evC1)]) none =
      .ok (rowsC1, "ics", []) := by decide
  exact ⟨hrun, parse_calendar_file_row_invariants _ _ _ _ _ hrun⟩

/-- C7 counterexample: an empty `.csv` byte buffer decodes to the empty
string, on which `pd.read_csv` raises `EmptyDataError` ("No columns to
parse from file"); the generic handler turns that into the warning
"Error reading CSV: No columns to parse from file", which does not
mention that the file is empty (in any capitalisation), refuting the
claimed warning for this input. -/
theorem c7_counterexample :
    parse_calendar_file (.csvReadError "No columns to parse from file") none =
      .ok ([], "unknown", ["Error reading CSV: No columns to parse from file"]) ∧
    strContains (pyLower "Error reading CSV: No columns to parse from file") "empty" = false :=
  ⟨rfl, by decide⟩

/-- C7 amended: an empty byte buffer with a `.csv` filename yields the
empty table, source `"unknown"`, and the read-error warning
"Error reading CSV: No columns to parse from file" (not one mentioning
the file is empty), for any override; an ICS calendar with no `VEVENT`
components yields the empty table, source `"ics"` and a warning that no
events were found. -/
theorem c7_amended :
    (∀ ov, parse_calendar_file (.csvReadError "No columns to parse from file") ov =
      .ok ([], "unknown", ["Error reading CSV: No columns to parse from file"])) ∧
    ∀ comps ov, (∀ c ∈ comps, c = IcsComponent.other) →
      parse_calendar_file (.icsCal comps) ov =
        .ok ([], "ics", ["No events found in ICS file"]) := by
  constructor
  · intro ov; rfl
  · intro comps ov h
    have hev : (comps.filterMap fun c =>
        match c with
        | IcsComponent.vevent e => e
        | IcsComponent.other => none) = [] := by
      rw [List.filterMap_eq_nil_iff]
      intro c hc
      rw [h c hc]
    simp only [parse_calendar_file, hev]
    rfl

theorem c7_amended_witness :
    parse_calendar_file (.csvReadError "No columns to parse from file") none =
        .ok ([], "unknown", ["Error reading CSV: No columns to parse from file"]) ∧
      parse_calendar_file (.icsCal [.other]) none =
        .ok ([], "ics", ["No events found in ICS file"]) :=
  ⟨c7_amended.1 none, c7_amended.2 [.other] none (by decide)⟩

/-- C5: `detect_csv_source` follows the claimed decision rule (strictly
more Outlook-signature columns present in the trimmed header gives
`outlook`, strictly more Google-signature columns gives `google`, a tie
with both `Subject` and `Start Date` present gives `google`, any other tie
gives `unknown`); in particular a nonempty header made only of Outlook
signature columns detects `outlook`, and one made only of Google signature
columns detects `google`. -/
theorem detect_csv_source_spec :
    (∀ t : Csv,
      ((GOOGLE_SIGNATURE.filter (· ∈ t.header.map pyStrip)).length <
          (OUTLOOK_SIGNATURE.filter (· ∈ t.header.map pyStrip)).length →
        detect_csv_source t = "outlook") ∧
      ((OUTLOOK_SIGNATURE.filter (· ∈ t.header.map pyStrip)).length <
          (GOOGLE_SIGNATURE.filter (· ∈ t.header.map pyStrip)).length →
        detect_csv_source t = "google") ∧
      ((OUTLOOK_SIGNATURE.filter (· ∈ t.header.map pyStrip)).length =
          (GOOGLE_SIGNATURE.filter (· ∈ t.header.map pyStrip)).length →
        "Subject" ∈ t.header.map pyStrip → "Start Date" ∈ t.header.map pyStrip →
        detect_csv_source t = "google") ∧
      ((OUTLOOK_SIGNATURE.filter (· ∈ t.header.map pyStrip)).length =
          (GOOGLE_SIGNATURE.filter (· ∈ t.header.map pyStrip)).length →
        ¬("Subject" ∈ t.header.map pyStrip ∧ "Start Date" ∈ t.header.map pyStrip) →
        detect_csv_source t = "unknown")) ∧
    (∀ t : Csv, t.header ≠ [] → (∀ c ∈ t.header, c ∈ OUTLOOK_SIGNATURE) →
      detect_csv_source t = "outlook") ∧
    (∀ t : Csv, t.header ≠ [] → (∀ c ∈ t.header, c ∈ GOOGLE_SIGNATURE) →
      detect_csv_source t = "google") := by
  have hbranch : ∀ t : Csv,
      ((GOOGLE_SIGNATURE.filter (· ∈ t.header.map pyStrip)).length <
          (OUTLOOK_SIGNATURE.filter (· ∈ t.header.map pyStrip)).length →
        detect_csv_source t = "outlook") ∧
      ((OUTLOOK_SIGNATURE.filter (· ∈ t.header.map pyStrip)).length <
          (GOOGLE_SIGNATURE.filter (· ∈ t.header.map pyStrip)).length →
        detect_csv_source t = "google") ∧
      ((OUTLOOK_SIGNATURE.filter (· ∈ t.header.map pyStrip)).length =
          (GOOGLE_SIGNATURE.filter (· ∈ t.header.map pyStrip)).length →
        "Subject" ∈ t.header.map pyStrip → "Start Date" ∈ t.header.map pyStrip →
        detect_csv_source t = "google") ∧
      ((OUTLOOK_SIGNATURE.filter (· ∈ t.header.map pyStrip)).length =
          (GOOGLE_SIGNATURE.filter (· ∈ t.header.map pyStrip)).length →
        ¬("Subject" ∈ t.header.map pyStrip ∧ "Start Date" ∈ t.header.map pyStrip) →
        detect_csv_source t = "unknown") := by
    intro t
    refine ⟨fun h => ?_, fun h => ?_, fun h hS hD => ?_, fun h hn => ?_⟩
    · simp only [detect_csv_source]
      rw [if_pos h]
    · simp only [detect_csv_source]
      rw [if_neg (by omega), if_pos h]
    · simp only [detect_csv_source]
      rw [if_neg (by omega), if_neg (by omega), if_pos ⟨hS, hD⟩]
    · simp only [detect_csv_source]
      rw [if_neg (by omega), if_neg (by omega), if_neg hn]
  have hstripO : ∀ s ∈ OUTLOOK_SIGNATURE, pyStrip s = s := by decide
  have hstripG : ∀ s ∈ GOOGLE_SIGNATURE, pyStrip s = s := by decide
  have hdisjGO : ∀ x ∈ GOOGLE_SIGNATURE, x ∉ OUTLOOK_SIGNATURE := by decide
  have hdisjOG : ∀ x ∈ OUTLOOK_SIGNATURE, x ∉ GOOGLE_SIGNATURE := by decide
  refine ⟨hbranch, ?_, ?_⟩
  · intro t hne hall
    obtain ⟨c0, hc0⟩ := List.exists_mem_of_ne_nil t.header hne
    have hc0sig : c0 ∈ OUTLOOK_SIGNATURE := hall c0 hc0
    have hc0col : c0 ∈ t.header.map pyStrip :=
      hstripO c0 hc0sig ▸ List.mem_map.mpr ⟨c0, hc0, rfl⟩
    have hom : 0 < (OUTLOOK_SIGNATURE.filter (· ∈ t.header.map pyStrip)).length := by
      apply List.length_pos.mpr
      exact List.ne_nil_of_mem (List.mem_filter.mpr ⟨hc0sig, by simpa using hc0col⟩)
    have hgm : (GOOGLE_SIGNATURE.filter (· ∈ t.header.map pyStrip)).length = 0 := by
      rw [List.length_eq_zero, List.filter_eq_nil_iff]
      intro g hg
      simp only [decide_eq_true_eq]
      intro hgcol
      obtain ⟨c, hc, hcg⟩ := List.mem_map.mp hgcol
      have hcsig : c ∈ OUTLOOK_SIGNATURE := hall c hc
      have hgout : g ∈ OUTLOOK_SIGNATURE := by
        rw [← hcg, hstripO c hcsig]; exact hcsig
      exact hdisjGO g hg hgout
    exact (hbranch t).1 (by omega)
  · intro t hne hall
    obtain ⟨c0, hc0⟩ := List.exists_mem_of_ne_nil t.header hne
    have hc0sig : c0 ∈ GOOGLE_SIGNATURE := hall c0 hc0
    have hc0col : c0 ∈ t.header.map pyStrip :=
      hstripG c0 hc0sig ▸ List.mem_map.mpr ⟨c0, hc0, rfl⟩
    have hgm : 0 < (GOOGLE_SIGNATURE.filter (· ∈ t.header.map pyStrip)).length := by
      apply List.length_pos.mpr
      exact List.ne_nil_of_mem (List.mem_filter.mpr ⟨hc0sig, by simpa using hc0col⟩)
    have hom : (OUTLOOK_SIGNATURE.filter (· ∈ t.header.map pyStrip)).length = 0 := by
      rw [List.length_eq_zero, List.filter_eq_nil_iff]
      intro g hg
      simp only [decide_eq_true_eq]
      intro hgcol
      obtain ⟨c, hc, hcg⟩ := List.mem_map.mp hgcol
      have hcsig : c ∈ GOOGLE_SIGNATURE := hall c hc
      have hgout : g ∈ GOOGLE_SIGNATURE := by
        rw [← hcg, hstripG c hcsig]; exact hcsig
      exact hdisjOG g hg hgout
    exact (hbranch t).2.1 (by omega)

theorem detect_csv_source_spec_witness :
    detect_csv_source ⟨["Organizer"], []⟩ = "outlook" ∧
      detect_csv_source ⟨["Description"], []⟩ = "google" ∧
      detect_csv_source ⟨["Subject", "Start Date"], []⟩ = "google" ∧
      detect_csv_source ⟨["Foo"], []⟩ = "unknown" ∧
      detect_csv_source ⟨["Organizer", "Meeting Organizer"], []⟩ = "outlook" ∧
      detect_csv_source ⟨["Private"], []⟩ = "google" := by
  refine ⟨?_, ?_, ?_, ?_, ?_, ?_⟩
  · exact (detect_csv_source_spec.1 _).1 (by decide)
  · exact (detect_csv_source_spec.1 _).2.1 (by decide)
  · exact (detect_csv_source_spec.1 _).2.2.1 (by decide) (by decide) (by decide)
  · exact (detect_csv_source_spec.1 _).2.2.2 (by decide) (by decide)
  · exact detect_csv_source_spec.2.1 _ (by decide) (by decide)
  · exact detect_csv_source_spec.2.2 _ (by decide) (by decide)

/-- One conditional stage of the filter engine is a sublist of its input. -/
theorem stage_sublist (c : Prop) [Decidable c] (p : Row → Bool) (l : List Row) :
    (if c then l.filter p else l).Sublist l := by
  split
  · exact List.filter_sublist l
  · exact List.Sublist.refl l

/-- A conditional filtering stage whose predicate already holds on every
element (when the stage is on) is the identity. -/
theorem stage_absorb (c : Prop) [Decidable c] (p : Row → Bool) (m : List Row)
    (h : c → ∀ x ∈ m, p x = true) : (if c then m.filter p else m) = m := by
  by_cases hc : c
  · rw [if_pos hc]
    exact filter_eq_self_of_all p m (h hc)
  · rw [if_neg hc]

/-- C9: for every behavior of the regex module (hence for CPython's true
behavior, including keyword patterns with metacharacters that compile),
every row surviving `apply_filters` is a row of the input table,
unchanged, and survivors keep their relative order (the output is a
sublist of the input). -/
theorem apply_filters_frame (re : ReModule) (df : Table) (ead : Bool) (md : ℤ)
    (kws : List String) (out : Table) (h : apply_filters re df ead md kws = .ok out) :
    out.Sublist df := by
  simp only [apply_filters] at h
  split at h
  · injection h with h2
    rw [← h2]
    exact (stage_sublist _ _ _).trans (stage_sublist _ _ _)
  · split at h
    · injection h with h2
      rw [← h2]
      exact (stage_sublist _ _ _).trans (stage_sublist _ _ _)
    · split at h
      · injection h with h2
        rw [← h2]
        exact (List.filter_sublist _).trans
          ((stage_sublist _ _ _).trans (stage_sublist _ _ _))
      · exact absurd h (by simp)

theorem apply_filters_frame_witness :
    apply_filters pyRe
        [{ plainRow "offsite" 10 with is_all_day := true }, plainRow "standup" 30]
        true 0 [] = .ok [plainRow "standup" 30] ∧
      List.Sublist [plainRow "standup" 30]
        [{ plainRow "offsite" 10 with is_all_day := true }, plainRow "standup" 30] := by
  have hrun : apply_filters pyRe
      [{ plainRow "offsite" 10 with is_all_day := true }, plainRow "standup" 30]
      true 0 [] = .ok [plainRow "standup" 30] := by decide
  exact ⟨hrun, apply_filters_frame _ _ _ _ _ _ hrun⟩

/-- C8: for every behavior of the regex module (hence for CPython's true
behavior, including keyword patterns with metacharacters that compile and
filter by genuine regex search), applying `apply_filters` twice with the
same configuration is the same as applying it once (sequencing the second
application with `bind`, so the exceptional branch is idempotent too). -/
theorem apply_filters_idempotent (re : ReModule) (df : Table) (ead : Bool) (md : ℤ)
    (kws : List String) :
    (apply_filters re df ead md kws).bind (fun t => apply_filters re t ead md kws) =
      apply_filters re df ead md kws := by
  have habsorb2 : ∀ l : Table,
      (if 0 < md then
          (if ead = true then l.filter (fun r => !r.is_all_day) else l).filter
            (fun r => decide ((md : ℚ) ≤ r.duration_minutes))
        else (if ead = true then l.filter (fun r => !r.is_all_day) else l)) =
      (fun m =>
        if 0 < md then
          (if ead = true then m.filter (fun r => !r.is_all_day) else m).filter
            (fun r => decide ((md : ℚ) ≤ r.duration_minutes))
        else (if ead = true then m.filter (fun r => !r.is_all_day) else m)) l := fun _ => rfl
  have key2 : ∀ X : Table,
      (ead = true → ∀ x ∈ X, (!x.is_all_day) = true) →
      (0 < md → ∀ x ∈ X, decide ((md : ℚ) ≤ x.duration_minutes) = true) →
      (if 0 < md then
          (if ead = true then X.filter (fun r => !r.is_all_day) else X).filter
            (fun r => decide ((md : ℚ) ≤ r.duration_minutes))
        else (if ead = true then X.filter (fun r => !r.is_all_day) else X)) = X := by
    intro X h1 h2
    rw [stage_absorb _ _ _ h1, stage_absorb _ _ _ h2]
  have hX1gen : ∀ hc : ead = true, ∀ x ∈ (if 0 < md then
        (if ead = true then df.filter (fun r => !r.is_all_day) else df).filter
          (fun r => decide ((md : ℚ) ≤ r.duration_minutes))
      else (if ead = true then df.filter (fun r => !r.is_all_day) else df)),
      (!x.is_all_day) = true := by
    intro hc x hx
    have h1 := stage_sublist (0 < md)
      (fun r : Row => decide ((md : ℚ) ≤ r.duration_minutes))
      (if ead = true then df.filter (fun r => !r.is_all_day) else df)
    have hx2 : x ∈ (if ead = true then df.filter (fun r => !r.is_all_day) else df) :=
      h1.subset hx
    rw [if_pos hc] at hx2
    exact (List.mem_filter.mp hx2).2
  have hX2gen : ∀ _ : 0 < md, ∀ x ∈ (if 0 < md then
        (if ead = true then df.filter (fun r => !r.is_all_day) else df).filter
          (fun r => decide ((md : ℚ) ≤ r.duration_minutes))
      else (if ead = true then df.filter (fun r => !r.is_all_day) else df)),
      decide ((md : ℚ) ≤ x.duration_minutes) = true := by
    intro hm x hx
    rw [if_pos hm] at hx
    exact (List.mem_filter.mp hx).2
  simp only [apply_filters]
  by_cases hk : kws.isEmpty = true
  · simp only [if_pos hk, Except.bind]
    congr 1
    exact key2 _ hX1gen hX2gen
  · simp only [if_neg hk]
    by_cases hk2 : (kws.filterMap fun k =>
        if pyStrip k = "" then none else some (pyLower (pyStrip k))).isEmpty = true
    · simp only [if_pos hk2, Except.bind]
      congr 1
      exact key2 _ hX1gen hX2gen
    · simp only [if_neg hk2]
      by_cases hre : re.compileOk (String.intercalate "|" (kws.filterMap fun k =>
          if pyStrip k = "" then none else some (pyLower (pyStrip k)))) = true
      · simp only [if_pos hre, Except.bind]
        congr 1
        have hp3 : ∀ x ∈ (if 0 < md then
              (if ead = true then df.filter (fun r => !r.is_all_day) else df).filter
                (fun r => decide ((md : ℚ) ≤ r.duration_minutes))
            else (if ead = true then df.filter (fun r => !r.is_all_day) else df)).filter
              (fun r => !re.search
                (String.intercalate "|" (kws.filterMap fun k =>
                  if pyStrip k = "" then none else some (pyLower (pyStrip k))))
                (pyLower r.subject)),
            (!re.search
              (String.intercalate "|" (kws.filterMap fun k =>
                if pyStrip k = "" then none else some (pyLower (pyStrip k))))
              (pyLower x.subject)) = true :=
          fun x hx => (List.mem_filter.mp hx).2
        have hsub3 : ∀ x ∈ (if 0 < md then
              (if ead = true then df.filter (fun r => !r.is_all_day) else df).filter
                (fun r => decide ((md : ℚ) ≤ r.duration_minutes))
            else (if ead = true then df.filter (fun r => !r.is_all_day) else df)).filter
              (fun r => !re.search
                (String.intercalate "|" (kws.filterMap fun k =>
                  if pyStrip k = "" then none else some (pyLower (pyStrip k))))
                (pyLower r.subject)),
            x ∈ (if 0 < md then
              (if ead = true then df.filter (fun r => !r.is_all_day) else df).filter
                (fun r => decide ((md : ℚ) ≤ r.duration_minutes))
            else (if ead = true then df.filter (fun r => !r.is_all_day) else df)) :=
          fun x hx => (List.filter_sublist _).subset hx
        rw [key2 _ (fun hc x hx => hX1gen hc x (hsub3 x hx))
            (fun hm x hx => hX2gen hm x (hsub3 x hx))]
        exact filter_eq_self_of_all _ _ hp3
      · simp only [if_neg hre, Except.bind]

/-- C2 counterexample: on the two-row "Status Update" table the code's
`total_hours` is 75/60 = 1.25 rounded half-to-even to 1.2, not the claimed
1.3. -/
theorem c2_counterexample :
    (get_top_meetings_by_time c2Table 10).map (·.total_hours) ≠ [(13 : ℚ) / 10] := by
  have h1 : (get_top_meetings_by_time c2Table 10).map (·.total_hours) = [qdiv 12 10] := by
    with_unfolding_all decide
  rw [h1, qdiv_eq_div]
  intro hc
  injection hc with h2 h3
  norm_num at h2

/-- C2 amended: two rows with subject "Status Update" and durations 30 and
45 minutes give one aggregated row with occurrences 2, total_hours 1.2
(numpy rounds 1.25 half-to-even) and avg_duration 38 (rounded from
37.5). -/
theorem c2_amended :
    get_top_meetings_by_time c2Table 10 =
      [{ subject := "Status Update", occurrences := 2, total_hours := (6 : ℚ) / 5,
         avg_duration := 38 }] := by
  have h1 : get_top_meetings_by_time c2Table 10 =
      [{ subject := "Status Update", occurrences := 2, total_hours := qdiv 6 5,
         avg_duration := 38 }] := by with_unfolding_all decide
  rw [h1, qdiv_eq_div]

/-! ### Substring lemmas for the recurring-keyword rule -/

theorem isPrefixChars_iff (p : List Char) : ∀ l, isPrefixChars p l = true ↔ p <+: l := by
  induction p with
  | nil =>
    intro l
    simp [isPrefixChars, List.nil_prefix]
  | cons a as ih =>
    intro l
    cases l with
    | nil =>
      simp [isPrefixChars]
    | cons b bs =>
      simp only [isPrefixChars, Bool.and_eq_true, decide_eq_true_eq, ih]
      constructor
      · rintro ⟨rfl, h2⟩
        obtain ⟨t, ht⟩ := h2
        exact ⟨t, by rw [← ht]; rfl⟩
      · rintro ⟨t, ht⟩
        injection ht with h3 h4
        exact ⟨h3, ⟨t, h4⟩⟩

theorem hasSubstr_iff (p : List Char) : ∀ l, hasSubstr p l = true ↔ p <:+: l := by
  intro l
  induction l with
  | nil =>
    cases p <;> simp [hasSubstr]
  | cons c r ih =>
    simp only [hasSubstr, Bool.or_eq_true, isPrefixChars_iff, ih]
    constructor
    · rintro (h | h)
      · obtain ⟨t, ht⟩ := h
        exact ⟨[], t, by simpa using ht⟩
      · obtain ⟨s, t, hst⟩ := h
        exact ⟨c :: s, t, by rw [← hst]; rfl⟩
    · rintro ⟨s, t, hst⟩
      cases s with
      | nil =>
        left
        exact ⟨t, by simpa using hst⟩
      | cons x xs =>
        right
        injection hst with h1 h2
        exact ⟨xs, t, h2⟩

theorem hasSubstr_nil_left (l : List Char) : hasSubstr [] l = true := by
  cases l <;> simp [hasSubstr, isPrefixChars]

theorem hasSubstr_dropWhile_front (p : List Char)
    (hp : ∀ c0, p.head? = some c0 → isPySpace c0 = false) (l : List Char) :
    hasSubstr p (l.dropWhile isPySpace) = hasSubstr p l := by
  cases p with
  | nil =>
    rw [hasSubstr_nil_left, hasSubstr_nil_left]
  | cons p0 ps =>
    have hp0 : isPySpace p0 = false := hp p0 rfl
    induction l with
    | nil => rfl
    | cons c r ih =>
      by_cases hws : isPySpace c = true
      · rw [List.dropWhile_cons_of_pos hws, ih]
        have hne : p0 ≠ c := by
          intro he
          rw [he, hws] at hp0
          exact absurd hp0 (by simp)
        have hrhs : hasSubstr (p0 :: ps) (c :: r) =
            (isPrefixChars (p0 :: ps) (c :: r) || hasSubstr (p0 :: ps) r) := rfl
        have hpre : isPrefixChars (p0 :: ps) (c :: r) = false := by
          simp [isPrefixChars, hne]
        rw [hrhs, hpre]
        simp
      · rw [List.dropWhile_cons_of_neg hws]

theorem hasSubstr_reverse (p l : List Char) :
    hasSubstr p l.reverse = hasSubstr (p.reverse) l := by
  rw [Bool.eq_iff_iff, hasSubstr_iff, hasSubstr_iff]
  constructor
  · intro h
    rw [← List.reverse_reverse p] at h
    exact List.reverse_infix.mp h
  · intro h
    rw [← List.reverse_reverse p]
    exact List.reverse_infix.mpr h

theorem hasSubstr_stripList (p : List Char)
    (hfirst : ∀ c0, p.head? = some c0 → isPySpace c0 = false)
    (hlast : ∀ c0, p.getLast? = some c0 → isPySpace c0 = false) (l : List Char) :
    hasSubstr p (stripList l) = hasSubstr p l := by
  have hrev : ∀ c0, p.reverse.head? = some c0 → isPySpace c0 = false := by
    intro c0 hc0
    rw [List.head?_reverse] at hc0
    exact hlast c0 hc0
  unfold stripList
  calc hasSubstr p ((l.dropWhile isPySpace).reverse.dropWhile isPySpace).reverse
      = hasSubstr p.reverse ((l.dropWhile isPySpace).reverse.dropWhile isPySpace) :=
        hasSubstr_reverse ..
    _ = hasSubstr p.reverse (l.dropWhile isPySpace).reverse :=
        hasSubstr_dropWhile_front p.reverse hrev _
    _ = hasSubstr p.reverse.reverse (l.dropWhile isPySpace) := hasSubstr_reverse ..
    _ = hasSubstr p (l.dropWhile isPySpace) := by rw [List.reverse_reverse]
    _ = hasSubstr p l := hasSubstr_dropWhile_front p hfirst l

theorem strContains_pyStrip (s k : String)
    (hfirst : ∀ c0, k.data.head? = some c0 → isPySpace c0 = false)
    (hlast : ∀ c0, k.data.getLast? = some c0 → isPySpace c0 = false) :
    strContains (pyStrip s) k = strContains s k :=
  hasSubstr_stripList k.data hfirst hlast s.data

theorem any_congr_mem {α : Type} (l : List α) (p q : α → Bool)
    (h : ∀ k ∈ l, p k = q k) : l.any p = l.any q := by
  induction l with
  | nil => rfl
  | cons a as ih =>
    simp only [List.any_cons, h a (List.mem_cons_self a as),
      ih fun k hk => h k (List.mem_cons_of_mem a hk)]

theorem subjectCount_eq_count (df : Table) (s : String) :
    subjectCount df s = (df.map fun x => pyStrip (pyLower x.subject)).count s := by
  unfold subjectCount
  rw [List.count, List.countP_map, ← List.countP_eq_length_filter]
  apply List.countP_congr
  intro r _
  by_cases h : normSubject r = s
  · simp only [Function.comp]
    rw [h]
    simp [normSubject] at h
    simp [h]
  · simp only [Function.comp]
    have h2 : ¬ pyStrip (pyLower r.subject) = s := h
    simp [h, h2]

/-- C3 amended: `estimate_recurring_time` sums `duration_minutes` over
exactly the rows whose lower-cased trimmed subject occurs at least twice,
or whose lower-cased subject contains one of the fixed keywords — the
fixed list containing the weekday names Monday through Friday (not
Saturday or Sunday) along with the other listed patterns. -/
theorem estimate_recurring_time_spec (df : Table) :
    estimate_recurring_time df = specRecurringMinutes df := by
  unfold estimate_recurring_time specRecurringMinutes
  by_cases hdf : df.isEmpty = true
  · rw [if_pos hdf]
    have hnil : df = [] := by
      cases df
      · rfl
      · simp at hdf
    subst hnil
    rfl
  · rw [if_neg hdf]
    have hedge : ∀ k ∈ recurring_keywords,
        (k.data.head?.all fun c => !isPySpace c) = true ∧
        (k.data.getLast?.all fun c => !isPySpace c) = true := by decide
    have hfilter : df.filter (isRecurringRow df) = df.filter (specIsRecurring df) := by
      apply List.filter_congr
      intro x _
      unfold isRecurringRow specIsRecurring
      have hcnt : subjectCount df (normSubject x) =
          (df.map fun y => pyStrip (pyLower y.subject)).count (pyStrip (pyLower x.subject)) :=
        subjectCount_eq_count df (normSubject x)
      rw [hcnt]
      congr 1
      apply any_congr_mem
      intro k hk
      have h1 : ∀ c0, k.data.head? = some c0 → isPySpace c0 = false := by
        intro c0 hc0
        have h3 := (hedge k hk).1
        rw [hc0] at h3
        simpa using h3
      have h2 : ∀ c0, k.data.getLast? = some c0 → isPySpace c0 = false := by
        intro c0 hc0
        have h3 := (hedge k hk).2
        rw [hc0] at h3
        simpa using h3
      exact strContains_pyStrip (pyLower x.subject) k h1 h2
    rw [hfilter]

/-- C3 counterexample: a single occurrence of subject "saturday" is not
recurring for the code (its keyword list has no weekend day names), but
the claimed rule — whose list contains every English weekday name — counts
it, so `estimate_recurring_time` is not the claimed sum. -/
theorem c3_counterexample :
    estimate_recurring_time c3Table = 0 ∧ c3ClaimMinutes c3Table = 10 ∧ (0 : ℚ) ≠ 10 := by
  refine ⟨by with_unfolding_all decide, by with_unfolding_all decide, by norm_num⟩

/-- C4 (code bug): with the keyword list `["("]` the joined pattern is an
invalid regular expression and `str.contains` raises `re.error`, so
`apply_filters` does not return normally: the claim's "never raises"
fails on this configuration. -/
theorem apply_filters_raises_on_invalid_regex :
    apply_filters pyRe [plainRow "deploy" 30] true 0 ["("] =
      .error "re.error: missing ), unterminated subpattern" := by
  with_unfolding_all decide

/-- C10 (code bug): a decodable, non-empty CSV detected as `unknown` whose
header has no `Subject`/`Title` column makes the Google-normalizer
fallback raise the pandas length-mismatch `ValueError` instead of
returning the table with source tag `google`. -/
theorem c10_fallback_crash :
    detect_csv_source c10Csv = "unknown" ∧ c10Csv.rows ≠ [] ∧
      parse_calendar_file (.csvTable c10Csv) none =
        .error "Length of values does not match length of index" := by
  refine ⟨by decide, by decide, by decide⟩

/-! ### Month-first parsing of `A/B/YYYY` strings (C6) -/

theorem isDigit_digitChar (n : Nat) (h : n ≤ 9) : isDigit (digitChar n) = true := by
  interval_cases n <;> decide

theorem digitVal_digitChar (n : Nat) (h : n ≤ 9) : digitVal (digitChar n) = n := by
  interval_cases n <;> decide

theorem isPySpace_digitChar (n : Nat) (h : n ≤ 9) : isPySpace (digitChar n) = false := by
  interval_cases n <;> decide

theorem month_step {α : Type} (A : Nat) (pad : Bool) (h1 : 1 ≤ A) (h2 : A ≤ 12)
    (R : List Char) (k : Nat → List Char → Cand α) :
    candBind (matchM (render2 A pad ++ '/' :: R))
      (fun mo r => candBind (matchLit '/' r) fun _ r2 => k mo r2) = k A R := by
  interval_cases A <;> cases pad <;>
    simp [render2, matchM, matchLit, candBind, digitChar, digitVal]

theorem day_step {α : Type} (B : Nat) (pad : Bool) (h1 : 1 ≤ B) (h2 : B ≤ 12)
    (R : List Char) (k : Nat → List Char → Cand α) :
    candBind (matchD (render2 B pad ++ '/' :: R))
      (fun d r => candBind (matchLit '/' r) fun _ r2 => k d r2) = k B R := by
  interval_cases B <;> cases pad <;>
    simp [render2, matchD, matchLit, candBind, digitChar, digitVal, isDigit]

theorem year_end {α : Type} (Y : Nat) (hY : Y ≤ 9999) (k : Nat → List Char → Cand α) :
    candBind (matchY (render4 Y)) k = k Y [] := by
  have e1 : Y / 1000 ≤ 9 := by omega
  have e2 : Y / 100 % 10 ≤ 9 := by omega
  have e3 : Y / 10 % 10 ≤ 9 := by omega
  have e4 : Y % 10 ≤ 9 := by omega
  have hval : ((digitVal (digitChar (Y / 1000)) * 10 + digitVal (digitChar (Y / 100 % 10))) * 10 +
      digitVal (digitChar (Y / 10 % 10))) * 10 + digitVal (digitChar (Y % 10)) = Y := by
    rw [digitVal_digitChar _ e1, digitVal_digitChar _ e2, digitVal_digitChar _ e3,
      digitVal_digitChar _ e4]
    omega
  show candBind (matchY [digitChar (Y / 1000), digitChar (Y / 100 % 10),
    digitChar (Y / 10 % 10), digitChar (Y % 10)]) k = k Y []
  rw [show matchY [digitChar (Y / 1000), digitChar (Y / 100 % 10),
      digitChar (Y / 10 % 10), digitChar (Y % 10)] =
      [(((digitVal (digitChar (Y / 1000)) * 10 + digitVal (digitChar (Y / 100 % 10))) * 10 +
        digitVal (digitChar (Y / 10 % 10))) * 10 + digitVal (digitChar (Y % 10)), [])] from by
    simp only [matchY]
    rw [if_pos ⟨isDigit_digitChar _ e1, isDigit_digitChar _ e2,
      isDigit_digitChar _ e3, isDigit_digitChar _ e4⟩]]
  rw [hval]
  simp [candBind]

theorem daysInMonth_ge_28 (y m : Nat) : 28 ≤ daysInMonth y m := by
  unfold daysInMonth
  split
  · split <;> omega
  · split <;> omega

theorem fmt_mdY_render (A B Y : Nat) (padA padB : Bool) (hA1 : 1 ≤ A) (hA2 : A ≤ 12)
    (hB1 : 1 ≤ B) (hB2 : B ≤ 12) (hY : Y ≤ 9999) :
    fmt_mdY (render2 A padA ++ '/' :: (render2 B padB ++ '/' :: render4 Y)) =
      [((Y, A, B), [])] := by
  unfold fmt_mdY
  rw [month_step A padA hA1 hA2]
  rw [day_step B padB hB1 hB2]
  rw [year_end Y hY]

theorem stripList_eq_self (l : List Char) (h : ∀ c ∈ l, isPySpace c = false) :
    stripList l = l := by
  have hdrop : ∀ m : List Char, (∀ c ∈ m, isPySpace c = false) →
      m.dropWhile isPySpace = m := by
    intro m hm
    cases m with
    | nil => rfl
    | cons c r =>
      rw [List.dropWhile_cons_of_neg (by simp [hm c (List.mem_cons_self c r)])]
  unfold stripList
  rw [hdrop l h, hdrop l.reverse fun c hc => h c (List.mem_reverse.mp hc),
    List.reverse_reverse]

theorem render2_no_space (n : Nat) (pad : Bool) (h : n ≤ 99) :
    ∀ c ∈ render2 n pad, isPySpace c = false := by
  intro c hc
  unfold render2 at hc
  split at hc
  · split at hc
    · simp only [List.mem_cons, List.not_mem_nil, or_false] at hc
      rcases hc with rfl | rfl
      · decide
      · exact isPySpace_digitChar n (by omega)
    · simp only [List.mem_cons, List.not_mem_nil, or_false] at hc
      subst hc
      exact isPySpace_digitChar n (by omega)
  · simp only [List.mem_cons, List.not_mem_nil, or_false] at hc
    rcases hc with rfl | rfl
    · exact isPySpace_digitChar _ (by omega)
    · exact isPySpace_digitChar _ (by omega)

theorem renderMDY_no_space (A B Y : Nat) (padA padB : Bool) (hA : A ≤ 99) (hB : B ≤ 99)
    (hY : Y ≤ 9999) :
    ∀ c ∈ (renderMDY A B Y padA padB).data, isPySpace c = false := by
  intro c hc
  have hc' : c ∈ render2 A padA ++ '/' :: (render2 B padB ++ '/' :: render4 Y) := hc
  rcases List.mem_append.mp hc' with h1 | h1
  · exact render2_no_space A padA hA c h1
  · rcases List.mem_cons.mp h1 with rfl | h2
    · decide
    · rcases List.mem_append.mp h2 with h3 | h3
      · exact render2_no_space B padB hB c h3
      · rcases List.mem_cons.mp h3 with rfl | h4
        · decide
        · simp only [render4, List.mem_cons, List.not_mem_nil, or_false] at h4
          rcases h4 with rfl | rfl | rfl | rfl
          · exact isPySpace_digitChar _ (by omega)
          · exact isPySpace_digitChar _ (by omega)
          · exact isPySpace_digitChar _ (by omega)
          · exact isPySpace_digitChar _ (by omega)

theorem pyStrip_renderMDY (A B Y : Nat) (padA padB : Bool) (hA : A ≤ 99) (hB : B ≤ 99)
    (hY : Y ≤ 9999) :
    pyStrip (renderMDY A B Y padA padB) = renderMDY A B Y padA padB := by
  unfold pyStrip
  rw [stripList_eq_self _ (renderMDY_no_space A B Y padA padB hA hB hY)]

theorem renderMDY_ne_empty (A B Y : Nat) (padA padB : Bool) :
    renderMDY A B Y padA padB ≠ "" := by
  have hd : (renderMDY A B Y padA padB).data ≠ [] := by
    show render2 A padA ++ '/' :: (render2 B padB ++ '/' :: render4 Y) ≠ []
    cases hr : render2 A padA <;> simp
  intro hc
  rw [hc] at hd
  exact hd rfl

theorem strptimeDate_mdY (A B Y : Nat) (padA padB : Bool) (hA1 : 1 ≤ A) (hA2 : A ≤ 12)
    (hB1 : 1 ≤ B) (hB2 : B ≤ 12) (hY1 : 1 ≤ Y) (hY2 : Y ≤ 9999) :
    strptimeDate fmt_mdY (renderMDY A B Y padA padB) = some ⟨Y, A, B, 0, 0, 0⟩ := by
  have hvalid : validDate Y A B = true := by
    have hd := daysInMonth_ge_28 Y A
    simp only [validDate, Bool.and_eq_true, decide_eq_true_eq]
    omega
  unfold strptimeDate
  rw [show (renderMDY A B Y padA padB).data =
    render2 A padA ++ '/' :: (render2 B padB ++ '/' :: render4 Y) from rfl]
  rw [fmt_mdY_render A B Y padA padB hA1 hA2 hB1 hB2 hY2]
  simp only [firstFull, List.head?]
  rw [if_pos hvalid]

/-- C6: `parse_datetime_str` returns `none` for a null date argument and
for a blank date string; it returns `none` whenever no combination of the
7 date formats and 5 time formats accepts the pair; and on every date
string of the form `A/B/YYYY` with `A` and `B` both between 1 and 12 it
parses month-first, returning the timestamp with month `A` and day `B`. -/
theorem parse_datetime_str_spec :
    (∀ t, parse_datetime_str none t = none) ∧
    (∀ d t, pyStrip d = "" → parse_datetime_str (some d) t = none) ∧
    (∀ d t, (∀ dp ∈ dateFormats, ∀ tf ∈ timeFormats,
        tryFormat (pyStrip d) (normTimeStr t) dp tf = none) →
      parse_datetime_str (some d) t = none) ∧
    (∀ A B Y : Nat, ∀ padA padB : Bool, 1 ≤ A → A ≤ 12 → 1 ≤ B → B ≤ 12 →
      1 ≤ Y → Y ≤ 9999 →
      parse_datetime_str (some (renderMDY A B Y padA padB)) none =
        some ⟨Y, A, B, 0, 0, 0⟩) := by
  refine ⟨fun t => rfl, ?_, ?_, ?_⟩
  · intro d t h
    simp only [parse_datetime_str]
    rw [if_pos h]
  · intro d t h
    simp only [parse_datetime_str]
    by_cases hds : pyStrip d = ""
    · rw [if_pos hds]
    · rw [if_neg hds]
      rw [List.findSome?_eq_none_iff]
      intro dp hdp
      rw [List.findSome?_eq_none_iff]
      intro tf htf
      exact h dp hdp tf htf
  · intro A B Y padA padB hA1 hA2 hB1 hB2 hY1 hY2
    have hstrip := pyStrip_renderMDY A B Y padA padB (by omega) (by omega) hY2
    have htry : tryFormat (renderMDY A B Y padA padB) (normTimeStr none) fmt_mdY
        (some fmt_IMSp) = some ⟨Y, A, B, 0, 0, 0⟩ := by
      unfold tryFormat normTimeStr
      rw [if_neg (by simp)]
      rw [hstrip]
      exact strptimeDate_mdY A B Y padA padB hA1 hA2 hB1 hB2 hY1 hY2
    simp only [parse_datetime_str]
    rw [hstrip, if_neg (renderMDY_ne_empty A B Y padA padB)]
    simp only [dateFormats, timeFormats, List.findSome?_cons, htry]

theorem parse_datetime_str_spec_witness :
    parse_datetime_str none (some "09:00") = none ∧
    parse_datetime_str (some "   ") none = none ∧
    parse_datetime_str (some "99/99") none = none ∧
    parse_datetime_str (some (renderMDY 3 4 2024 false false)) none =
      some ⟨2024, 3, 4, 0, 0, 0⟩ ∧
    renderMDY 3 4 2024 false false = "3/4/2024" := by
  refine ⟨parse_datetime_str_spec.1 (some "09:00"),
    parse_datetime_str_spec.2.1 "   " none (by decide),
    parse_datetime_str_spec.2.2.1 "99/99" none (by decide),
    parse_datetime_str_spec.2.2.2 3 4 2024 false false (by norm_num) (by norm_num)
      (by norm_num) (by norm_num) (by norm_num) (by norm_num),
    by decide⟩

end CalAudit
